import Mathlib

/-!
Verification of the django-mailersend adapter.

The repository holds two near-duplicate variants of the same adapter class
`MailerSendEmailMessage`:
  * `src/django_mailersend/message.py` — the variant with an address parser
    (`__parse_address`, wrapping `email.utils.parseaddr`) applied to every
    address field, and a `send` that interprets the transport response
    (success count 1 when the response text starts with "202", else 0);
  * `src/django_mailersend/backend.py` — the variant that places raw address
    strings verbatim into the payload (`{'email': to}`) and whose `send`
    returns the raw formatted response string.

Both variants share the header validation, content negotiation and
attachment-encoding logic verbatim.  We embed both conversion pipelines.

External collaborators (Python standard library, mailersend SDK) are embedded
as follows:
  * `base64.b64encode` / `base64.b64decode` — implemented below for byte
    lists / canonical base64 text (the only inputs the claims exercise);
  * `str.encode()` — UTF-8 encoding, implemented below;
  * `mimetypes.guess_extension` — environment-dependent table, taken as an
    explicit parameter `guess : String → Option String` (returning `none`
    models the Python function returning `None`);
  * `email.utils.parseaddr` — taken as a parameter
    `pa : String → String × String` (display-name, address) wherever the
    claim is about the adapter, with a concrete model `parseaddrModel`
    for the spec's concrete examples;
  * the mailersend SDK setters (`set_mail_from`, `set_plaintext_content`,
    `set_cc_recipients`, ...) — each stores its argument under a fixed key of
    the payload dict; the payload is embedded as a structure whose optional
    fields are `none` exactly when the corresponding key is absent.

Python exceptions are embedded by `Except String`: the error string is the
exception message (`ValueError('Extra headers not supported')`,
`ValueError('Content type not supported')`) or the exception class for the
unintended ones (`TypeError`, `AttributeError`).
-/

/-- Model of the standard base64 alphabet: the 6-bit value of a base64
character, `none` for a non-alphabet character (`base64.b64decode` discards
non-alphabet characters such as the `=` padding). -/
def b64Val (c : Char) : Option Nat :=
  if 65 ≤ c.toNat ∧ c.toNat ≤ 90 then some (c.toNat - 65)
  else if 97 ≤ c.toNat ∧ c.toNat ≤ 122 then some (c.toNat - 97 + 26)
  else if 48 ≤ c.toNat ∧ c.toNat ≤ 57 then some (c.toNat - 48 + 52)
  else if c = '+' then some 62
  else if c = '/' then some 63
  else none

/-- The base64 character with 6-bit value `n` (n < 64). -/
def b64Char (n : Nat) : Char :=
  "ABCDEFGHIJKLMNOPQRSTUVWXYZabcdefghijklmnopqrstuvwxyz0123456789+/".data.getD n 'A'

/-- Model of `base64.b64encode` on a byte list: bytes in groups of three to
four base64 characters, with `=` padding. -/
def b64encodeList : List Nat → List Char
  | [] => []
  | [a] => [b64Char (a / 4), b64Char ((a % 4) * 16), '=', '=']
  | [a, b] => [b64Char (a / 4), b64Char ((a % 4) * 16 + b / 16),
               b64Char ((b % 16) * 4), '=']
  | a :: b :: c :: rest =>
      b64Char (a / 4) :: b64Char ((a % 4) * 16 + b / 16) ::
      b64Char ((b % 16) * 4 + c / 64) :: b64Char (c % 64) :: b64encodeList rest

/-- `base64.b64encode(content).decode('ascii')`: byte list to base64 text. -/
def b64encode (bs : List Nat) : String := String.mk (b64encodeList bs)

/-- Groups of four 6-bit values to three bytes (two or three trailing values
to one or two bytes, from canonical padding). -/
def b64decodeVals : List Nat → List Nat
  | a :: b :: c :: d :: rest =>
      (a * 4 + b / 16) :: ((b % 16) * 16 + c / 4) :: ((c % 4) * 64 + d) ::
      b64decodeVals rest
  | [a, b] => [a * 4 + b / 16]
  | [a, b, c] => [a * 4 + b / 16, (b % 16) * 16 + c / 4]
  | _ => []

/-- Model of `base64.b64decode` on canonical base64 text: discard
non-alphabet characters (including the `=` padding) and regroup the 6-bit
values into bytes. -/
def b64decode (s : String) : List Nat := b64decodeVals (s.data.filterMap b64Val)

/-- UTF-8 encoding of one code point (model of CPython's `str.encode()`,
whose default codec is UTF-8). -/
def utf8EncodeChar (n : Nat) : List Nat :=
  if n < 128 then [n]
  else if n < 2048 then [192 + n / 64, 128 + n % 64]
  else if n < 65536 then [224 + n / 4096, 128 + (n / 64) % 64, 128 + n % 64]
  else [240 + n / 262144, 128 + (n / 4096) % 64, 128 + (n / 64) % 64, 128 + n % 64]

/-- Model of `str.encode()`: UTF-8 bytes of a string. -/
def utf8Encode (s : String) : List Nat := (s.data.map (fun c => utf8EncodeChar c.toNat)).flatten

/-- The content slot of a Django "named" attachment triple
`(filename, content, mimetype)`: `attachment[1]` is either a string (then
`__get_attachment_content` encodes it, `content.encode()`) or already bytes. -/
inductive AttachmentData where
  | text (s : String)
  | bytes (bs : List Nat)
deriving DecidableEq

/-- A Django email attachment, its two runtime shapes:
  * `named filename data mimetype` — the tuple form
    `(filename, content, mimetype)` (each slot may be `None`);
  * `mime filename payload contentType charset` — an
    `email.mime.base.MIMEBase` part, with `get_filename()`,
    `get_payload()`, `get_content_type()` and `get_content_charset()`
    embedded as the four fields (`none` where the accessor returns `None`). -/
inductive Attachment where
  | named (filename : Option String) (data : AttachmentData) (mimetype : Option String)
  | mime (filename : Option String) (payload : String) (contentType : String)
         (charset : Option String)
deriving DecidableEq

/-- A Django `EmailMessage` (`EmailMultiAlternatives` when `alternatives` is
non-empty), restricted to the fields the adapter reads.  `alternatives` holds
`(content, mimetype)` pairs; a plain `EmailMessage` without the
`alternatives` attribute behaves exactly like `alternatives = []` (the
`hasattr` guard skips an empty loop).  `extraHeaders` keeps only what the
adapter inspects: the header names. -/
structure SourceMessage where
  fromEmail : String
  mailTo : List String
  cc : List String
  bcc : List String
  replyTo : List String
  subject : String
  body : String
  contentSubtype : String
  alternatives : List (String × String)
  attachments : List Attachment
  extraHeaders : List String
deriving DecidableEq

/-- A MailerSend address record `{name?, email}`: `name = none` embeds a dict
with no `'name'` key. -/
structure AddressRecord where
  name : Option String
  email : String
deriving DecidableEq

/-- One entry of the payload's `attachments` list:
`{'filename': ..., 'content': base64, 'disposition': 'attachment'}`. -/
structure AttachmentPayload where
  filename : String
  content : String
  disposition : String
deriving DecidableEq

/-- The outbound payload dict built into `self.__email_data` by the
mailersend SDK setters.  Each `Option` field is `none` exactly when the
corresponding key is absent from the dict (the SDK setters
`set_mail_from` / `set_mail_to` / `set_subject` / `set_cc_recipients` /
`set_bcc_recipients` / `set_reply_to` / `set_plaintext_content` /
`set_html_content` / `set_attachments` each store their argument under one
fixed key). -/
structure Payload where
  fromAddr : AddressRecord
  mailTo : List AddressRecord
  subject : String
  cc : Option (List AddressRecord)
  bcc : Option (List AddressRecord)
  replyTo : Option (List AddressRecord)
  text : Option String
  html : Option String
  attachments : Option (List AttachmentPayload)
deriving DecidableEq

/-- `MailerSendEmailMessage.__parse_address` (message.py lines 207-223),
parameterized by `pa`, the behavior of `email.utils.parseaddr` (standard
library, returns a `(display-name, address)` pair of strings and never
raises): include a `'name'` key only when the display name is non-empty,
always include the `'email'` key. -/
def parseAddress (pa : String → String × String) (address : String) : AddressRecord :=
  { name := if 0 < (pa address).1.length then some (pa address).1 else none,
    email := (pa address).2 }

/-- Split a character list at the first occurrence of `c`: the part before
and the part after, `none` when `c` does not occur. -/
def splitAtChar (c : Char) : List Char → Option (List Char × List Char)
  | [] => none
  | x :: xs =>
      if x = c then some ([], xs)
      else
        match splitAtChar c xs with
        | none => none
        | some (l, r) => some (x :: l, r)

/-- The characters before the first occurrence of `c` (all of them when `c`
does not occur). -/
def takeBefore (c : Char) : List Char → List Char
  | [] => []
  | x :: xs => if x = c then [] else x :: takeBefore c xs

/-- Drop leading space characters. -/
def dropLeadingSpaces : List Char → List Char
  | [] => []
  | x :: xs => if x = ' ' then dropLeadingSpaces xs else x :: xs

/-- Strip spaces from both ends. -/
def trimSpaces (l : List Char) : List Char :=
  ((dropLeadingSpaces (dropLeadingSpaces l.reverse)).reverse) |> dropLeadingSpaces

/-- Modelled from the spec: `email.utils.parseaddr` is Python standard
library, not part of this repository.  Per the spec it splits
`"Display Name <user@example.com>"` into name and address, maps a bare
`"user@example.com"` to an empty name and the address, and degrades
gracefully (empty strings) instead of raising on malformed input.  This
model covers those documented forms: anything before the first `<` is the
(space-trimmed) display name, the address is what stands before the
following `>`; without a `<` the whole string is the address with no
name. -/
def parseaddrModel (s : String) : String × String :=
  match splitAtChar '<' s.data with
  | none => ("", s)
  | some (namePart, rest) =>
      (String.mk (trimSpaces namePart), String.mk (takeBefore '>' rest))

/-- The loop body of `__set_content` (message.py lines 104-110, identical in
backend.py): walk the alternatives in sequence order over the content dict
(embedded as its only two possible entries, `('text/plain', 'text/html')`),
inserting each supported alternative at its mimetype key and raising
`ValueError('Content type not supported')` at the first unsupported one. -/
def setContentAux (acc : Option String × Option String) :
    List (String × String) → Except String (Option String × Option String)
  | [] => Except.ok acc
  | alt :: rest =>
      if alt.2 = "text/html" then setContentAux (acc.1, some alt.1) rest
      else if alt.2 = "text/plain" then setContentAux (some alt.1, acc.2) rest
      else Except.error "Content type not supported"

/-- `MailerSendEmailMessage.__set_content` (message.py lines 84-118,
identical in backend.py lines 78-111): seed the content dict from the
primary body according to `content_subtype` (raising
`ValueError('Content type not supported')` for any other subtype), then
overlay the alternatives; the result's components are what
`set_plaintext_content` / `set_html_content` store (each only when its key
is present in the dict). -/
def setContent (contentSubtype body : String) (alternatives : List (String × String)) :
    Except String (Option String × Option String) :=
  if contentSubtype = "plain" then setContentAux (some body, none) alternatives
  else if contentSubtype = "html" then setContentAux (none, some body) alternatives
  else Except.error "Content type not supported"

/-- `attachment.get_content_type()` as called by
`__get_attachment_filename`: defined for the MIMEBase form; on the tuple
form Python raises `AttributeError` (tuples have no such method), embedded
as `none`. -/
def attachmentContentType : Attachment → Option String
  | Attachment.mime _ _ ct _ => some ct
  | Attachment.named _ _ _ => none

/-- The filename slot of an attachment: `get_filename()` for the MIMEBase
form, `attachment[0]` for the tuple form. -/
def attachmentFilename : Attachment → Option String
  | Attachment.mime fn _ _ _ => fn
  | Attachment.named fn _ _ => fn

/-- `MailerSendEmailMessage.__get_attachment_filename` (backend.py lines
197-225, identical in message.py lines 225-253), parameterized by `guess`,
the behavior of `mimetypes.guess_extension`.  Returns the filename and the
updated `__nameless_attachment_index`.  When the filename is absent the code
evaluates `'attachment-' + str(index) + guess_extension(content_type)`:
if `guess_extension` returns `None` this string concatenation raises
`TypeError`, and on the tuple form the `get_content_type()` call itself
raises `AttributeError`; only the nameless branch increments the index. -/
def getAttachmentFilename (guess : String → Option String) (att : Attachment)
    (index : Nat) : Except String (String × Nat) :=
  match attachmentFilename att with
  | some fn => Except.ok (fn, index)
  | none =>
      match attachmentContentType att with
      | none => Except.error "AttributeError"
      | some ct =>
          match guess ct with
          | none => Except.error "TypeError"
          | some ext => Except.ok ("attachment-" ++ toString index ++ ext, index + 1)

/-- `MailerSendEmailMessage.__get_attachment_content` (backend.py lines
227-254, identical in message.py lines 255-282): MIMEBase payload with no
charset is base64-decoded to bytes, with a charset it is `encode()`d;
tuple content is used as-is when bytes and `encode()`d when a string. -/
def getAttachmentContent : Attachment → List Nat
  | Attachment.mime _ payload _ none => b64decode payload
  | Attachment.mime _ payload _ (some _) => utf8Encode payload
  | Attachment.named _ (AttachmentData.bytes bs) _ => bs
  | Attachment.named _ (AttachmentData.text s) _ => utf8Encode s

/-- The loop of `MailerSendEmailMessage.__set_attachments` (backend.py lines
186-194): per attachment, resolve the filename (threading the nameless
counter) and the content, and append
`{'filename', 'content': b64encode(content), 'disposition': 'attachment'}`. -/
def setAttachmentsList (guess : String → Option String) :
    List Attachment → Nat → Except String (List AttachmentPayload)
  | [], _ => Except.ok []
  | att :: rest, index =>
      match getAttachmentFilename guess att index with
      | Except.error e => Except.error e
      | Except.ok (fn, index') =>
          match setAttachmentsList guess rest index' with
          | Except.error e => Except.error e
          | Except.ok rest' =>
              Except.ok ({ filename := fn,
                           content := b64encode (getAttachmentContent att),
                           disposition := "attachment" } :: rest')

/-- `MailerSendEmailMessage.__set_attachments` (backend.py lines 180-195,
identical in message.py lines 189-205): the `attachments` key stays absent
(`none`) when the message has no attachments, else the converted list is
stored; the nameless counter starts at 1. -/
def setAttachments (guess : String → Option String) (atts : List Attachment) :
    Except String (Option (List AttachmentPayload)) :=
  if atts.length = 0 then Except.ok none
  else
    match setAttachmentsList guess atts 1 with
    | Except.error e => Except.error e
    | Except.ok l => Except.ok (some l)

/-- `MailerSendEmailMessage.__validate_headers` (message.py lines 72-82,
identical in backend.py lines 66-76): raise
`ValueError('Extra headers not supported')` when the `extra_headers` dict
has any key. -/
def validateHeaders (msg : SourceMessage) : Except String Unit :=
  if 0 < msg.extraHeaders.length then Except.error "Extra headers not supported"
  else Except.ok ()

/-- `MailerSendEmailMessage.__init__` of message.py (lines 29-56): the whole
conversion, in the constructor's call order — `__validate_headers` first,
then `__set_content`, then the address fields through `__parse_address`
(`cc`/`bcc`/`reply_to` keys stored only for non-empty sequences), the
subject, and `__set_attachments` last.  An exception anywhere discards the
partially built dict (the constructor never returns), which the
`Except`-sequencing embeds: an error step yields no payload at all. -/
def convert (pa : String → String × String) (guess : String → Option String)
    (msg : SourceMessage) : Except String Payload :=
  match validateHeaders msg with
  | Except.error e => Except.error e
  | Except.ok _ =>
      match setContent msg.contentSubtype msg.body msg.alternatives with
      | Except.error e => Except.error e
      | Except.ok content =>
          match setAttachments guess msg.attachments with
          | Except.error e => Except.error e
          | Except.ok atts =>
              Except.ok
                { fromAddr := parseAddress pa msg.fromEmail,
                  mailTo := msg.mailTo.map (parseAddress pa),
                  subject := msg.subject,
                  cc := if msg.cc.length = 0 then none
                        else some (msg.cc.map (parseAddress pa)),
                  bcc := if msg.bcc.length = 0 then none
                         else some (msg.bcc.map (parseAddress pa)),
                  replyTo := if msg.replyTo.length = 0 then none
                             else some (msg.replyTo.map (parseAddress pa)),
                  text := content.1,
                  html := content.2,
                  attachments := atts }

/-- `MailerSendEmailMessage.__init__` of backend.py (lines 19-54): the same
pipeline, except that no address field is parsed — `__set_mail_from` stores
`{'email': from_email}` and `__set_mail_to` / `__set_cc_recipients` /
`__set_bcc_recipients` / `__set_reply_to` map each raw string to
`{'email': raw}` (backend.py lines 113-178), so no `'name'` key ever
appears. -/
def convertBackend (guess : String → Option String) (msg : SourceMessage) :
    Except String Payload :=
  match validateHeaders msg with
  | Except.error e => Except.error e
  | Except.ok _ =>
      match setContent msg.contentSubtype msg.body msg.alternatives with
      | Except.error e => Except.error e
      | Except.ok content =>
          match setAttachments guess msg.attachments with
          | Except.error e => Except.error e
          | Except.ok atts =>
              Except.ok
                { fromAddr := { name := none, email := msg.fromEmail },
                  mailTo := msg.mailTo.map (fun t => { name := none, email := t }),
                  subject := msg.subject,
                  cc := if msg.cc.length = 0 then none
                        else some (msg.cc.map (fun t => { name := none, email := t })),
                  bcc := if msg.bcc.length = 0 then none
                         else some (msg.bcc.map (fun t => { name := none, email := t })),
                  replyTo := if msg.replyTo.length = 0 then none
                             else some (msg.replyTo.map (fun t => { name := none, email := t })),
                  text := content.1,
                  html := content.2,
                  attachments := atts }

/-- `MailerSendEmailMessage.send` of message.py (lines 58-70), the
send-result interpretation: the transport response is a string; return 1
when its first three characters (`response[:3]`, which is the whole string
when shorter) equal `"202"`, else 0. -/
def interpretSendResult (response : String) : Nat :=
  if response.take 3 = "202" then 1 else 0

/-- One message through the message.py pipeline:
`MailerSendEmailMessage(email_message).send()` — conversion in the
constructor, then the transport call on the converted payload and the
interpretation of its response.  A conversion error propagates before any
transport attempt, so `transport` is never applied then. -/
def sendOne (pa : String → String × String) (guess : String → Option String)
    (transport : Payload → String) (msg : SourceMessage) : Except String Nat :=
  match convert pa guess msg with
  | Except.error e => Except.error e
  | Except.ok p => Except.ok (interpretSendResult (transport p))

/-- Specification-side description of the content-negotiation overlay
(claim C2): the content that the *last* alternative of the given mimetype
contributes, `none` when no alternative carries that mimetype. -/
def lastAlternative (kind : String) : List (String × String) → Option String
  | [] => none
  | alt :: rest =>
      match lastAlternative kind rest with
      | some c => some c
      | none => if alt.2 = kind then some alt.1 else none

/-- The number of nameless attachments among the first `j` attachments:
per claim C5, the nameless-attachment counter reaches `1 + namelessCountBefore`
when the `j`-th attachment is processed. -/
def namelessCountBefore (atts : List Attachment) (j : Nat) : Nat :=
  ((atts.take j).filter (fun a => (attachmentFilename a).isNone)).length

/-- Erase the optional recipient keys of a payload, to compare what the
rest of the payload looks like (claim C10's frame condition). -/
def stripRecipients (p : Payload) : Payload :=
  { p with cc := none, bcc := none, replyTo := none }

/-- A minimal plain-text Django message, the base input of the concrete
witnesses. -/
def simpleMessage (fromEmail : String) (recipients cc bcc replyTo : List String) : SourceMessage :=
  { fromEmail := fromEmail, mailTo := recipients, cc := cc, bcc := bcc, replyTo := replyTo,
    subject := "Subject", body := "Hi", contentSubtype := "plain",
    alternatives := [], attachments := [], extraHeaders := [] }

/-- A concrete `mimetypes.guess_extension` table knowing only the PDF
mimetype, for the concrete examples. -/
def guessPdf : String → Option String :=
  fun ct => if ct = "application/pdf" then some ".pdf" else none

/-- Three nameless MIMEBase attachments with a named one interleaved, the
spec's counter example input. -/
def attachmentsExample : List Attachment :=
  [Attachment.mime none "SGVsbG8=" "application/pdf" none,
   Attachment.named (some "a.txt") (AttachmentData.text "x") none,
   Attachment.mime none "" "application/pdf" none,
   Attachment.mime none "" "application/pdf" none]

/-- What the adapter encodes `attachmentsExample` to. -/
def encodedAttachmentsExample : List AttachmentPayload :=
  [{ filename := "attachment-1.pdf", content := "SGVsbG8=", disposition := "attachment" },
   { filename := "a.txt", content := "eA==", disposition := "attachment" },
   { filename := "attachment-2.pdf", content := "", disposition := "attachment" },
   { filename := "attachment-3.pdf", content := "", disposition := "attachment" }]

/-- A message with one recipient and one cc entry, for the concrete
payload-shape examples. -/
def messageWithCc : SourceMessage :=
  simpleMessage "a@b" ["t@t"] ["c@c"] [] []

/-- What the message.py pipeline converts `messageWithCc` to. -/
def payloadWithCc : Payload :=
  { fromAddr := { name := none, email := "a@b" },
    mailTo := [{ name := none, email := "t@t" }],
    subject := "Subject",
    cc := some [{ name := none, email := "c@c" }],
    bcc := none, replyTo := none,
    text := some "Hi", html := none, attachments := none }

/-- A message whose raw `to` entry carries a display name, for the address
parsing examples. -/
def messageWithDisplayName : SourceMessage :=
  simpleMessage "Jane Doe <jane@example.com>" ["Jane Doe <jane@example.com>"] [] [] []

/-- What the message.py pipeline converts `messageWithDisplayName` to. -/
def payloadWithDisplayName : Payload :=
  { fromAddr := { name := some "Jane Doe", email := "jane@example.com" },
    mailTo := [{ name := some "Jane Doe", email := "jane@example.com" }],
    subject := "Subject",
    cc := none, bcc := none, replyTo := none,
    text := some "Hi", html := none, attachments := none }

/-- The alternatives loop raises `ValueError('Content type not supported')`
exactly when some alternative's mimetype is neither `text/html` nor
`text/plain` (the loop stops at the first such alternative, but one exists
iff one is reached). -/
theorem setContentAux_error_iff (alts : List (String × String)) :
    ∀ acc, (setContentAux acc alts = Except.error "Content type not supported" ↔
      ∃ a ∈ alts, a.2 ≠ "text/html" ∧ a.2 ≠ "text/plain") := by
  induction alts with
  | nil => intro acc; simp [setContentAux]
  | cons a rest ih =>
      intro acc
      by_cases h1 : a.2 = "text/html"
      · simp [setContentAux, h1, ih]
      · by_cases h2 : a.2 = "text/plain"
        · simp [setContentAux, h1, h2, ih]
        · simp [setContentAux, h1, h2]

/-- The alternatives loop fails with no other message. -/
theorem setContentAux_error_eq (alts : List (String × String)) :
    ∀ acc e, setContentAux acc alts = Except.error e →
      e = "Content type not supported" := by
  induction alts with
  | nil => intro acc e h; simp [setContentAux] at h
  | cons a rest ih =>
      intro acc e h
      by_cases h1 : a.2 = "text/html"
      · exact ih _ e (by simpa [setContentAux, h1] using h)
      · by_cases h2 : a.2 = "text/plain"
        · exact ih _ e (by simpa [setContentAux, h1, h2] using h)
        · simp [setContentAux, h1, h2] at h
          exact h.symm

/-- The alternatives loop succeeds exactly when every alternative's mimetype
is supported. -/
theorem setContentAux_ok_iff (alts : List (String × String)) :
    ∀ acc, ((∃ c, setContentAux acc alts = Except.ok c) ↔
      ∀ a ∈ alts, a.2 = "text/html" ∨ a.2 = "text/plain") := by
  induction alts with
  | nil => intro acc; simp [setContentAux]
  | cons a rest ih =>
      intro acc
      by_cases h1 : a.2 = "text/html"
      · simp [setContentAux, h1, ih]
      · by_cases h2 : a.2 = "text/plain"
        · simp [setContentAux, h1, h2, ih]
        · simp [setContentAux, h1, h2]

/-- On supported alternatives the loop implements the keyed overlay: each
content slot holds the last alternative of its mimetype, defaulting to the
seed slot. -/
theorem setContentAux_lastAlt (alts : List (String × String)) :
    ∀ acc, (∀ a ∈ alts, a.2 = "text/html" ∨ a.2 = "text/plain") →
      setContentAux acc alts =
        Except.ok ((lastAlternative "text/plain" alts).or acc.1,
                   (lastAlternative "text/html" alts).or acc.2) := by
  induction alts with
  | nil => intro acc _; simp [setContentAux, lastAlternative]
  | cons a rest ih =>
      intro acc h
      have hrest : ∀ x ∈ rest, x.2 = "text/html" ∨ x.2 = "text/plain" :=
        fun x hx => h x (List.mem_cons_of_mem _ hx)
      by_cases h1 : a.2 = "text/html"
      · rw [show setContentAux acc (a :: rest) = setContentAux (acc.1, some a.1) rest by
          simp [setContentAux, h1], ih _ hrest]
        have hne : a.2 ≠ "text/plain" := by simp [h1]
        cases hh : lastAlternative "text/html" rest <;>
          cases hp : lastAlternative "text/plain" rest <;>
            simp [lastAlternative, hh, hp, h1, hne, Option.or]
      · have h2 : a.2 = "text/plain" := (h a (List.mem_cons_self a rest)).resolve_left h1
        rw [show setContentAux acc (a :: rest) = setContentAux (some a.1, acc.2) rest by
          simp [setContentAux, h1, h2], ih _ hrest]
        cases hh : lastAlternative "text/html" rest <;>
          cases hp : lastAlternative "text/plain" rest <;>
            simp [lastAlternative, hh, hp, h1, h2, Option.or]

/-- `__get_attachment_filename` raises only the two unintended exceptions. -/
theorem getAttachmentFilename_error (guess : String → Option String)
    (att : Attachment) (index : Nat) (e : String) :
    getAttachmentFilename guess att index = Except.error e →
    e = "TypeError" ∨ e = "AttributeError" := by
  intro h
  unfold getAttachmentFilename at h
  split at h
  · simp at h
  · split at h
    · simp at h; exact Or.inr h.symm
    · split at h
      · simp at h; exact Or.inl h.symm
      · simp at h

/-- The attachments loop raises only the two unintended exceptions, never a
`ValueError` message. -/
theorem setAttachmentsList_error (guess : String → Option String)
    (atts : List Attachment) :
    ∀ index e, setAttachmentsList guess atts index = Except.error e →
      e = "TypeError" ∨ e = "AttributeError" := by
  induction atts with
  | nil => intro i e h; simp [setAttachmentsList] at h
  | cons a rest ih =>
      intro i e h
      unfold setAttachmentsList at h
      cases hf : getAttachmentFilename guess a i with
      | error e' =>
          rw [hf] at h
          simp at h
          exact h ▸ getAttachmentFilename_error guess a i e' hf
      | ok v =>
          obtain ⟨fn, i'⟩ := v
          rw [hf] at h
          simp only at h
          cases hr : setAttachmentsList guess rest i' with
          | error e' =>
              rw [hr] at h
              simp at h
              exact h ▸ ih i' e' hr
          | ok rest' => rw [hr] at h; simp at h

/-- `__set_attachments` forwards only the loop's errors. -/
theorem setAttachments_error (guess : String → Option String)
    (atts : List Attachment) (e : String) :
    setAttachments guess atts = Except.error e →
    e = "TypeError" ∨ e = "AttributeError" := by
  intro h
  unfold setAttachments at h
  split at h
  · simp at h
  · cases hr : setAttachmentsList guess atts 1 with
    | error e' =>
        rw [hr] at h
        simp at h
        exact h ▸ setAttachmentsList_error guess atts 1 e' hr
    | ok l => rw [hr] at h; simp at h

/-- A stored attachments list comes from the loop started at counter 1. -/
theorem setAttachments_ok_some (guess : String → Option String)
    (atts : List Attachment) (res : List AttachmentPayload) :
    setAttachments guess atts = Except.ok (some res) →
    setAttachmentsList guess atts 1 = Except.ok res := by
  intro h
  unfold setAttachments at h
  split at h
  · simp at h
  · cases hr : setAttachmentsList guess atts 1 with
    | error e' => rw [hr] at h; simp at h
    | ok l => rw [hr] at h; simp at h; rw [h]

/-- `__set_content` raises `ValueError('Content type not supported')` exactly
when the subtype or some alternative's mimetype is unsupported. -/
theorem setContent_error_iff (k b : String) (alts : List (String × String)) :
    setContent k b alts = Except.error "Content type not supported" ↔
      (¬ (k = "plain" ∨ k = "html") ∨
        ∃ a ∈ alts, a.2 ≠ "text/html" ∧ a.2 ≠ "text/plain") := by
  unfold setContent
  by_cases h1 : k = "plain"
  · simp [h1, setContentAux_error_iff]
  · by_cases h2 : k = "html"
    · simp [h1, h2, setContentAux_error_iff]
    · simp [h1, h2]

/-- `__set_content` raises no other message. -/
theorem setContent_error_eq (k b : String) (alts : List (String × String))
    (e : String) :
    setContent k b alts = Except.error e → e = "Content type not supported" := by
  unfold setContent
  by_cases h1 : k = "plain"
  · simp only [h1, if_true]
    exact setContentAux_error_eq alts _ e
  · by_cases h2 : k = "html"
    · simp only [h1, h2, if_false, if_true]
      exact setContentAux_error_eq alts _ e
    · intro h
      simp [h1, h2] at h
      exact h.symm

/-- `__set_content` succeeds exactly when the subtype and every alternative's
mimetype are supported. -/
theorem setContent_ok_iff (k b : String) (alts : List (String × String)) :
    (∃ c, setContent k b alts = Except.ok c) ↔
      ((k = "plain" ∨ k = "html") ∧
        ∀ a ∈ alts, a.2 = "text/html" ∨ a.2 = "text/plain") := by
  by_cases h1 : k = "plain"
  · rw [show setContent k b alts = setContentAux (some b, none) alts by
      simp [setContent, h1]]
    rw [setContentAux_ok_iff]
    simp [h1]
  · by_cases h2 : k = "html"
    · rw [show setContent k b alts = setContentAux (none, some b) alts by
        simp [setContent, h1, h2]]
      rw [setContentAux_ok_iff]
      simp [h1, h2]
    · rw [show setContent k b alts = Except.error "Content type not supported" by
        simp [setContent, h1, h2]]
      simp [h1, h2]

/-- The nameless counter has seen nothing before the first attachment. -/
theorem namelessCountBefore_zero (atts : List Attachment) :
    namelessCountBefore atts 0 = 0 := by
  simp [namelessCountBefore]

/-- One step of the nameless count: the head contributes one exactly when it
is nameless. -/
theorem namelessCountBefore_succ (a : Attachment) (rest : List Attachment)
    (j : Nat) :
    namelessCountBefore (a :: rest) (j + 1) =
      (if (attachmentFilename a).isNone then 1 else 0) + namelessCountBefore rest j := by
  simp only [namelessCountBefore, List.take_succ_cons]
  cases hfa : (attachmentFilename a).isNone <;>
    simp [List.filter_cons, hfa, Nat.add_comm]

/-- Filename threading through the attachments loop: when the loop succeeds
from counter `index`, the `j`-th attachment, if nameless (MIMEBase form with
no filename) with a guessable extension, is assigned
`attachment-(index + number of nameless attachments before it)` plus the
guessed extension. -/
theorem setAttachmentsList_filename (guess : String → Option String)
    (atts : List Attachment) :
    ∀ index res, setAttachmentsList guess atts index = Except.ok res →
      ∀ j p ct ch ext, atts[j]? = some (Attachment.mime none p ct ch) →
        guess ct = some ext →
        (res[j]?).map AttachmentPayload.filename =
          some ("attachment-" ++ toString (index + namelessCountBefore atts j) ++ ext) := by
  induction atts with
  | nil =>
      intro index res h j p ct ch ext hj hg
      simp at hj
  | cons a rest ih =>
      intro index res h j p ct ch ext hj hg
      unfold setAttachmentsList at h
      cases hf : getAttachmentFilename guess a index with
      | error e => rw [hf] at h; simp at h
      | ok v =>
          obtain ⟨fn, i'⟩ := v
          rw [hf] at h
          simp only at h
          cases hr : setAttachmentsList guess rest i' with
          | error e => rw [hr] at h; simp at h
          | ok rest' =>
              rw [hr] at h
              simp only [Except.ok.injEq] at h
              subst h
              cases j with
              | zero =>
                  simp only [List.getElem?_cons_zero, Option.some.injEq] at hj
                  subst hj
                  rw [getAttachmentFilename] at hf
                  simp [attachmentFilename, attachmentContentType, hg] at hf
                  simp [namelessCountBefore_zero, hf.1]
              | succ j' =>
                  simp only [List.getElem?_cons_succ] at hj
                  have hIH := ih i' rest' hr j' p ct ch ext hj hg
                  have hi' : (i' = index ∧ (attachmentFilename a).isNone = false) ∨
                      (i' = index + 1 ∧ (attachmentFilename a).isNone = true) := by
                    cases hfa : attachmentFilename a with
                    | some fn0 =>
                        rw [getAttachmentFilename, hfa] at hf
                        simp at hf
                        exact Or.inl ⟨hf.2.symm, by simp [hfa]⟩
                    | none =>
                        rw [getAttachmentFilename, hfa] at hf
                        simp only at hf
                        cases hct : attachmentContentType a with
                        | none => rw [hct] at hf; simp at hf
                        | some ct0 =>
                            rw [hct] at hf
                            simp only at hf
                            cases hg0 : guess ct0 with
                            | none => rw [hg0] at hf; simp at hf
                            | some e0 =>
                                rw [hg0] at hf
                                simp at hf
                                exact Or.inr ⟨hf.2.symm, by simp [hfa]⟩
                  have hidx : index + namelessCountBefore (a :: rest) (j' + 1) =
                      i' + namelessCountBefore rest j' := by
                    rw [namelessCountBefore_succ]
                    rcases hi' with ⟨h1, h2⟩ | ⟨h1, h2⟩ <;> rw [h2] <;> simp <;> omega
                  simp only [List.getElem?_cons_succ]
                  rw [hidx]
                  exact hIH

/-- A successful conversion determines the payload: every field is as the
constructor's setter sequence stores it. -/
theorem convert_ok_elim (pa : String → String × String)
    (guess : String → Option String) (msg : SourceMessage) (p : Payload) :
    convert pa guess msg = Except.ok p →
    ∃ content atts,
      setContent msg.contentSubtype msg.body msg.alternatives = Except.ok content ∧
      setAttachments guess msg.attachments = Except.ok atts ∧
      p = { fromAddr := parseAddress pa msg.fromEmail,
            mailTo := msg.mailTo.map (parseAddress pa),
            subject := msg.subject,
            cc := if msg.cc.length = 0 then none
                  else some (msg.cc.map (parseAddress pa)),
            bcc := if msg.bcc.length = 0 then none
                   else some (msg.bcc.map (parseAddress pa)),
            replyTo := if msg.replyTo.length = 0 then none
                       else some (msg.replyTo.map (parseAddress pa)),
            text := content.1, html := content.2, attachments := atts } := by
  intro h
  unfold convert at h
  cases hv : validateHeaders msg with
  | error e => rw [hv] at h; simp at h
  | ok u =>
      rw [hv] at h
      simp only at h
      cases hc : setContent msg.contentSubtype msg.body msg.alternatives with
      | error e => rw [hc] at h; simp at h
      | ok content =>
          rw [hc] at h
          simp only at h
          cases ha : setAttachments guess msg.attachments with
          | error e => rw [ha] at h; simp at h
          | ok atts =>
              rw [ha] at h
              simp only [Except.ok.injEq] at h
              exact ⟨content, atts, rfl, rfl, h.symm⟩

/-- On a message that passes the header check, the whole conversion raises
`ValueError('Content type not supported')` exactly when the subtype or some
alternative's mimetype is unsupported (the attachment step can only raise
differently named exceptions). -/
theorem convert_error_content (pa : String → String × String)
    (guess : String → Option String) (msg : SourceMessage)
    (h : msg.extraHeaders = []) :
    convert pa guess msg = Except.error "Content type not supported" ↔
      (¬ (msg.contentSubtype = "plain" ∨ msg.contentSubtype = "html") ∨
        ∃ a ∈ msg.alternatives, a.2 ≠ "text/html" ∧ a.2 ≠ "text/plain") := by
  cases hc : setContent msg.contentSubtype msg.body msg.alternatives with
  | error e =>
      have he := setContent_error_eq _ _ _ _ hc
      subst he
      have hcv : convert pa guess msg = Except.error "Content type not supported" := by
        simp [convert, validateHeaders, h, hc]
      rw [hcv]
      simp only [true_iff]
      exact (setContent_error_iff _ _ _).mp hc
  | ok c =>
      have hok := (setContent_ok_iff msg.contentSubtype msg.body msg.alternatives).mp ⟨c, hc⟩
      have hnot : ¬ (¬ (msg.contentSubtype = "plain" ∨ msg.contentSubtype = "html") ∨
          ∃ a ∈ msg.alternatives, a.2 ≠ "text/html" ∧ a.2 ≠ "text/plain") := by
        intro hRHS
        rcases hRHS with hbad | ⟨a, ha', hbad⟩
        · exact hbad hok.1
        · rcases hok.2 a ha' with h' | h'
          · exact hbad.1 h'
          · exact hbad.2 h'
      cases ha : setAttachments guess msg.attachments with
      | error e =>
          have hcv : convert pa guess msg = Except.error e := by
            simp [convert, validateHeaders, h, hc, ha]
          rw [hcv]
          simp only [hnot, iff_false, Except.error.injEq]
          intro he
          rcases setAttachments_error guess _ _ ha with h' | h' <;> rw [h'] at he <;>
            exact absurd he (by decide)
      | ok atts =>
          have hcv : ∃ p, convert pa guess msg = Except.ok p := by
            unfold convert
            rw [show validateHeaders msg = Except.ok () by simp [validateHeaders, h]]
            simp only [hc, ha]
            exact ⟨_, rfl⟩
          obtain ⟨p, hcv⟩ := hcv
          rw [hcv]
          exact ⟨fun he => absurd he (by simp), fun hr => absurd hr hnot⟩

/-- The `cc`, `bcc` and `reply_to` inputs feed only their own payload keys:
changing them (for instance emptying them) leaves every other part of the
conversion result unchanged. -/
theorem convert_congr_recipients (pa : String → String × String)
    (guess : String → Option String) (msg : SourceMessage)
    (cc' bcc' rt' : List String) :
    (convert pa guess { msg with cc := cc', bcc := bcc', replyTo := rt' }).map
        stripRecipients =
      (convert pa guess msg).map stripRecipients := by
  obtain ⟨f, t, c, b, r, s, bo, cs, al, att, eh⟩ := msg
  by_cases heh : 0 < eh.length
  · simp [convert, validateHeaders, heh, Except.map]
  · cases hc : setContent cs bo al with
    | error e => simp [convert, validateHeaders, heh, hc, Except.map]
    | ok content =>
        cases ha : setAttachments guess att with
        | error e => simp [convert, validateHeaders, heh, hc, ha, Except.map]
        | ok atts => simp [convert, validateHeaders, heh, hc, ha, Except.map, stripRecipients]

/-- C1: content negotiation fails with `UnsupportedContentType` (the
`ValueError('Content type not supported')`) if and only if the body's
content subtype is neither `plain` nor `html` or some alternative's mimetype
is neither `text/html` nor `text/plain`; when all are supported it succeeds.
The same holds of the whole conversion once the (earlier) header check has
passed. -/
theorem c1_unsupported_content_type :
    (∀ (k b : String) (alts : List (String × String)),
      (setContent k b alts = Except.error "Content type not supported" ↔
        (¬ (k = "plain" ∨ k = "html") ∨
          ∃ a ∈ alts, a.2 ≠ "text/html" ∧ a.2 ≠ "text/plain")) ∧
      ((k = "plain" ∨ k = "html") ∧
          (∀ a ∈ alts, a.2 = "text/html" ∨ a.2 = "text/plain") →
        ∃ c, setContent k b alts = Except.ok c)) ∧
    (∀ (pa : String → String × String) (guess : String → Option String)
        (msg : SourceMessage), msg.extraHeaders = [] →
      (convert pa guess msg = Except.error "Content type not supported" ↔
        (¬ (msg.contentSubtype = "plain" ∨ msg.contentSubtype = "html") ∨
          ∃ a ∈ msg.alternatives, a.2 ≠ "text/html" ∧ a.2 ≠ "text/plain"))) := by
  constructor
  · intro k b alts
    exact ⟨setContent_error_iff k b alts, fun hgood => (setContent_ok_iff k b alts).mpr hgood⟩
  · intro pa guess msg h
    exact convert_error_content pa guess msg h

/-- C1 witness: a `markdown` subtype is rejected with the `ValueError`, a
supported subtype with a supported alternative succeeds. -/
theorem c1_witness :
    setContent "markdown" "x" [] = Except.error "Content type not supported" ∧
    (∃ c, setContent "plain" "Hi" [("<p>Hi</p>", "text/html")] = Except.ok c) :=
  ⟨(c1_unsupported_content_type.1 "markdown" "x" []).1.mpr (by decide),
   (c1_unsupported_content_type.1 "plain" "Hi" [("<p>Hi</p>", "text/html")]).2 (by decide)⟩

/-- C2: negotiation seeds the content mapping from the primary body
(`text/plain` slot for subtype `plain`, `text/html` slot for `html`) and
overlays the alternatives in sequence order, so each slot holds the last
alternative of its mimetype, defaulting to the seeded body; in particular a
`plain` body `"Hi"` with one `("<p>Hi</p>", "text/html")` alternative
populates both fields, and of two same-kind alternatives the later one
wins. -/
theorem c2_overlay_last_wins :
    (∀ (b : String) (alts : List (String × String)),
      (∀ a ∈ alts, a.2 = "text/html" ∨ a.2 = "text/plain") →
      setContent "plain" b alts =
        Except.ok (some ((lastAlternative "text/plain" alts).getD b),
                   lastAlternative "text/html" alts) ∧
      setContent "html" b alts =
        Except.ok (lastAlternative "text/plain" alts,
                   some ((lastAlternative "text/html" alts).getD b))) ∧
    setContent "plain" "Hi" [("<p>Hi</p>", "text/html")] =
      Except.ok (some "Hi", some "<p>Hi</p>") ∧
    setContent "plain" "seed" [("first", "text/html"), ("second", "text/html")] =
      Except.ok (some "seed", some "second") := by
  refine ⟨?_, rfl, rfl⟩
  intro b alts hgood
  constructor
  · rw [show setContent "plain" b alts = setContentAux (some b, none) alts by
      simp [setContent]]
    rw [setContentAux_lastAlt alts _ hgood]
    cases hp : lastAlternative "text/plain" alts <;>
      cases hh : lastAlternative "text/html" alts <;> simp [Option.or]
  · rw [show setContent "html" b alts = setContentAux (none, some b) alts by
      simp [setContent]]
    rw [setContentAux_lastAlt alts _ hgood]
    cases hp : lastAlternative "text/plain" alts <;>
      cases hh : lastAlternative "text/html" alts <;> simp [Option.or]

/-- C2 witness: the round-trip example, through the general overlay shape. -/
theorem c2_witness :
    setContent "plain" "Hi" [("<p>Hi</p>", "text/html")] =
      Except.ok (some ((lastAlternative "text/plain" [("<p>Hi</p>", "text/html")]).getD "Hi"),
                 lastAlternative "text/html" [("<p>Hi</p>", "text/html")]) :=
  (c2_overlay_last_wins.1 "Hi" [("<p>Hi</p>", "text/html")] (by decide)).1

/-- C4: the send-result interpretation of message.py returns 1 exactly when
the first three characters of the response text are `"202"`, returns 0 for
every other response, and can return nothing else; `"202 Accepted"` counts
as 1 and `"500 Internal Server Error"` as 0. -/
theorem c4_send_result_interpretation :
    (∀ response : String,
      (interpretSendResult response = 1 ∨ interpretSendResult response = 0) ∧
      (interpretSendResult response = 1 ↔ response.take 3 = "202") ∧
      (interpretSendResult response = 0 ↔ response.take 3 ≠ "202")) ∧
    interpretSendResult "202 Accepted" = 1 ∧
    interpretSendResult "500 Internal Server Error" = 0 := by
  refine ⟨?_, rfl, rfl⟩
  intro r
  unfold interpretSendResult
  by_cases h : r.take 3 = "202" <;> simp [h]

/-- C4 witness: the two concrete statuses of the claim. -/
theorem c4_witness :
    interpretSendResult "202 Accepted" = 1 ∧
    interpretSendResult "500 Internal Server Error" = 0 :=
  ⟨c4_send_result_interpretation.2.1,
   (c4_send_result_interpretation.1 "500 Internal Server Error").2.2.mpr (by decide)⟩

/-- C7: a MIMEBase attachment with no declared charset has its payload
base64-decoded to raw bytes and the stored content field is the base64
re-encoding of those bytes; with a charset the payload text is encoded
directly.  On the claim's payload `"SGVsbG8="` the decode yields the bytes
of `Hello` and the re-encode restores `"SGVsbG8="`. -/
theorem c7_binary_attachment_round_trip :
    (∀ (fn : Option String) (p ct : String),
      getAttachmentContent (Attachment.mime fn p ct none) = b64decode p) ∧
    (∀ (fn : Option String) (p ct ch : String),
      getAttachmentContent (Attachment.mime fn p ct (some ch)) = utf8Encode p) ∧
    (∀ (guess : String → Option String) (fn p ct : String) (index : Nat),
      setAttachmentsList guess [Attachment.mime (some fn) p ct none] index =
        Except.ok [{ filename := fn, content := b64encode (b64decode p),
                     disposition := "attachment" }]) ∧
    b64decode "SGVsbG8=" = utf8Encode "Hello" ∧
    b64encode (b64decode "SGVsbG8=") = "SGVsbG8=" :=
  ⟨fun _ _ _ => rfl, fun _ _ _ _ => rfl, fun _ _ _ _ _ => rfl, by decide, by decide⟩

/-- C8: any message with a non-empty extra-headers mapping is rejected with
`ValueError('Extra headers not supported')` before anything else: the
conversion yields no payload — whatever the other fields hold — and the
transport is never consulted. -/
theorem c8_headers_checked_first :
    ∀ (pa : String → String × String) (guess : String → Option String)
      (transport : Payload → String) (msg : SourceMessage),
      msg.extraHeaders ≠ [] →
      convert pa guess msg = Except.error "Extra headers not supported" ∧
      sendOne pa guess transport msg = Except.error "Extra headers not supported" := by
  intro pa guess transport msg h
  have hv : validateHeaders msg = Except.error "Extra headers not supported" := by
    unfold validateHeaders
    rw [if_pos (List.length_pos.mpr h)]
  have hc : convert pa guess msg = Except.error "Extra headers not supported" := by
    unfold convert
    rw [hv]
  refine ⟨hc, ?_⟩
  unfold sendOne
  rw [hc]

/-- C8 witness: a message carrying both an extra header and an unsupported
content subtype is rejected with the headers error, not the content one. -/
theorem c8_witness :
    convert parseaddrModel (fun _ => none)
        { simpleMessage "a@b" [] [] [] [] with
          contentSubtype := "weird", extraHeaders := ["X-Custom"] } =
      Except.error "Extra headers not supported" ∧
    ({ simpleMessage "a@b" [] [] [] [] with
        contentSubtype := "weird", extraHeaders := ["X-Custom"] } :
      SourceMessage).contentSubtype ≠ "plain" :=
  ⟨(c8_headers_checked_first parseaddrModel (fun _ => none) (fun _ => "202 Accepted")
      { simpleMessage "a@b" [] [] [] [] with
        contentSubtype := "weird", extraHeaders := ["X-Custom"] } (by decide)).1,
   by decide⟩

/-- C3 counterexample: the backend.py variant does not pass address fields
through the address parser — the raw string
`"Jane Doe <jane@example.com>"` in `to` lands verbatim as the `email` value,
not as the record `{name: "Jane Doe", email: "jane@example.com"}` the claim
requires. -/
theorem c3_counterexample :
    (convertBackend (fun _ => none)
        (simpleMessage "from@example.com" ["Jane Doe <jane@example.com>"] [] [] [])).map
        Payload.mailTo =
      Except.ok [{ name := none, email := "Jane Doe <jane@example.com>" }] ∧
    ({ name := none, email := "Jane Doe <jane@example.com>" } : AddressRecord) ≠
      { name := some "Jane Doe", email := "jane@example.com" } :=
  ⟨rfl, by decide⟩

/-- C3 (amended): in the message.py variant every address field — `from`,
each entry of `to`, `cc`, `bcc` and `reply_to` — goes through
`__parse_address`, and the parser maps `"Jane Doe <jane@example.com>"` to
`{name: "Jane Doe", email: "jane@example.com"}` and a bare address to a
record with no name; the backend.py variant instead stores each raw string
verbatim as the `email` value with no `name` key. -/
theorem c3_address_fields_parsed :
    (∀ (pa : String → String × String) (guess : String → Option String)
        (msg : SourceMessage) (p : Payload),
      convert pa guess msg = Except.ok p →
      p.fromAddr = parseAddress pa msg.fromEmail ∧
      p.mailTo = msg.mailTo.map (parseAddress pa) ∧
      p.cc = (if msg.cc.length = 0 then none
              else some (msg.cc.map (parseAddress pa))) ∧
      p.bcc = (if msg.bcc.length = 0 then none
               else some (msg.bcc.map (parseAddress pa))) ∧
      p.replyTo = (if msg.replyTo.length = 0 then none
                   else some (msg.replyTo.map (parseAddress pa)))) ∧
    (∀ (guess : String → Option String) (msg : SourceMessage) (p : Payload),
      convertBackend guess msg = Except.ok p →
      p.fromAddr = { name := none, email := msg.fromEmail } ∧
      p.mailTo = msg.mailTo.map (fun t => { name := none, email := t })) ∧
    parseAddress parseaddrModel "Jane Doe <jane@example.com>" =
      { name := some "Jane Doe", email := "jane@example.com" } ∧
    parseAddress parseaddrModel "jane@example.com" =
      { name := none, email := "jane@example.com" } := by
  refine ⟨?_, ?_, by rfl, by rfl⟩
  · intro pa guess msg p h
    obtain ⟨content, atts, _, _, hp⟩ := convert_ok_elim pa guess msg p h
    subst hp
    exact ⟨rfl, rfl, rfl, rfl, rfl⟩
  · intro guess msg p h
    unfold convertBackend at h
    cases hv : validateHeaders msg with
    | error e => rw [hv] at h; simp at h
    | ok u =>
        rw [hv] at h
        simp only at h
        cases hc : setContent msg.contentSubtype msg.body msg.alternatives with
        | error e => rw [hc] at h; simp at h
        | ok content =>
            rw [hc] at h
            simp only at h
            cases ha : setAttachments guess msg.attachments with
            | error e => rw [ha] at h; simp at h
            | ok atts =>
                rw [ha] at h
                simp only [Except.ok.injEq] at h
                subst h
                exact ⟨rfl, rfl⟩

/-- C3 witness: the message.py pipeline on a message whose `from` and `to`
carry a display name. -/
theorem c3_witness :
    convert parseaddrModel (fun _ => none) messageWithDisplayName =
      Except.ok payloadWithDisplayName ∧
    payloadWithDisplayName.fromAddr =
      parseAddress parseaddrModel messageWithDisplayName.fromEmail ∧
    payloadWithDisplayName.mailTo =
      messageWithDisplayName.mailTo.map (parseAddress parseaddrModel) := by
  have h : convert parseaddrModel (fun _ => none) messageWithDisplayName =
      Except.ok payloadWithDisplayName := by rfl
  have hfields := (c3_address_fields_parsed.1 parseaddrModel (fun _ => none)
    messageWithDisplayName payloadWithDisplayName h)
  exact ⟨h, hfields.1, hfields.2.1⟩

/-- C5: starting from 1, the nameless-attachment counter advances once per
nameless attachment and never for a named one: when the attachments loop
succeeds, the `j`-th attachment, if nameless with guessable extension, is
named `attachment-(1 + number of nameless attachments before it)` plus the
extension, and a named attachment keeps its filename with the counter
untouched. -/
theorem c5_nameless_counter :
    (∀ (guess : String → Option String) (atts : List Attachment)
        (res : List AttachmentPayload) (j : Nat) (p ct : String)
        (ch : Option String) (ext : String),
      setAttachments guess atts = Except.ok (some res) →
      atts[j]? = some (Attachment.mime none p ct ch) →
      guess ct = some ext →
      (res[j]?).map AttachmentPayload.filename =
        some ("attachment-" ++ toString (1 + namelessCountBefore atts j) ++ ext)) ∧
    (∀ (guess : String → Option String) (att : Attachment) (index : Nat)
        (fn : String),
      attachmentFilename att = some fn →
      getAttachmentFilename guess att index = Except.ok (fn, index)) := by
  constructor
  · intro guess atts res j p ct ch ext h hj hg
    exact setAttachmentsList_filename guess atts 1 res
      (setAttachments_ok_some guess atts res h) j p ct ch ext hj hg
  · intro guess att index fn h
    unfold getAttachmentFilename
    rw [h]

/-- C5 witness: three nameless attachments with a named one interleaved get
`attachment-1`, `attachment-2`, `attachment-3`; the third nameless one sits
at position 3 with two nameless ones before it. -/
theorem c5_witness :
    setAttachments guessPdf attachmentsExample =
      Except.ok (some encodedAttachmentsExample) ∧
    (encodedAttachmentsExample[3]?).map AttachmentPayload.filename =
      some ("attachment-" ++ toString (1 + namelessCountBefore attachmentsExample 3) ++ ".pdf") ∧
    "attachment-" ++ toString (1 + namelessCountBefore attachmentsExample 3) ++ ".pdf" =
      "attachment-3.pdf" :=
  ⟨by rfl,
   c5_nameless_counter.1 guessPdf attachmentsExample encodedAttachmentsExample 3
     "" "application/pdf" none ".pdf" (by rfl) (by decide) (by rfl),
   by decide⟩

/-- C6 counterexample: on a nameless attachment whose content type yields no
guessable extension, the filename-synthesis step does not produce a name
without extension — it fails (the `TypeError` from concatenating the missing
extension), and so does the whole attachment encoding. -/
theorem c6_counterexample :
    getAttachmentFilename (fun _ => none)
        (Attachment.mime none "" "application/x-unknown" none) 1 =
      Except.error "TypeError" ∧
    setAttachments (fun _ => none)
        [Attachment.mime none "" "application/x-unknown" none] =
      Except.error "TypeError" :=
  ⟨rfl, rfl⟩

/-- C6 (amended): filename synthesis for a nameless attachment is not total:
when no extension can be guessed from the content type it raises (the
`TypeError` of concatenating `None`) instead of producing an
extension-less name; when an extension is guessed it returns
`attachment-{n}` plus the extension and advances the counter. -/
theorem c6_extension_guess_failure :
    ∀ (guess : String → Option String) (p ct : String) (ch : Option String)
      (index : Nat),
      (guess ct = none →
        getAttachmentFilename guess (Attachment.mime none p ct ch) index =
          Except.error "TypeError") ∧
      (∀ ext, guess ct = some ext →
        getAttachmentFilename guess (Attachment.mime none p ct ch) index =
          Except.ok ("attachment-" ++ toString index ++ ext, index + 1)) := by
  intro guess p ct ch index
  constructor
  · intro h
    simp [getAttachmentFilename, attachmentFilename, attachmentContentType, h]
  · intro ext h
    simp [getAttachmentFilename, attachmentFilename, attachmentContentType, h]

/-- C6 witness: both branches at concrete inputs. -/
theorem c6_witness :
    getAttachmentFilename (fun _ => none)
        (Attachment.mime none "" "application/x-unknown" none) 5 =
      Except.error "TypeError" ∧
    getAttachmentFilename (fun _ => some ".bin")
        (Attachment.mime none "" "application/octet-stream" none) 2 =
      Except.ok ("attachment-" ++ toString 2 ++ ".bin", 2 + 1) ∧
    "attachment-" ++ toString 2 ++ ".bin" = "attachment-2.bin" :=
  ⟨(c6_extension_guess_failure (fun _ => none) "" "application/x-unknown" none 5).1 rfl,
   (c6_extension_guess_failure (fun _ => some ".bin") "" "application/octet-stream" none 2).2
     ".bin" rfl,
   by decide⟩

/-- C9: the address parser is total — it is a function of the parseaddr
result, raising nothing — and its record always carries the `email` value
(the address component, empty when parsing failed), while the `name` key
exists exactly when the display name is non-empty; the empty input yields
the empty-email record. -/
theorem c9_parse_address_invariant :
    (∀ (pa : String → String × String) (s : String),
      (parseAddress pa s).email = (pa s).2 ∧
      ((parseAddress pa s).name.isSome ↔ 0 < (pa s).1.length) ∧
      (∀ n, (parseAddress pa s).name = some n → n = (pa s).1) ∧
      ((pa s).1.length = 0 →
        parseAddress pa s = { name := none, email := (pa s).2 })) ∧
    parseAddress parseaddrModel "" = { name := none, email := "" } := by
  refine ⟨?_, by rfl⟩
  intro pa s
  by_cases h : 0 < (pa s).1.length
  · refine ⟨rfl, ?_, ?_, ?_⟩
    · simp [parseAddress, h]
    · intro n hn
      simp [parseAddress, h] at hn
      exact hn.symm
    · intro h0
      omega
  · refine ⟨rfl, ?_, ?_, ?_⟩
    · simp [parseAddress, h]
    · intro n hn
      simp [parseAddress, h] at hn
    · intro _
      simp [parseAddress, h]

/-- C9 witness: the parser through the concrete parseaddr model on a named
address and on a bare address. -/
theorem c9_witness :
    (parseAddress parseaddrModel "Jane Doe <jane@example.com>").email =
      (parseaddrModel "Jane Doe <jane@example.com>").2 ∧
    (parseAddress parseaddrModel "Jane Doe <jane@example.com>").name.isSome ∧
    parseAddress parseaddrModel "jane@example.com" =
      { name := none, email := (parseaddrModel "jane@example.com").2 } :=
  ⟨(c9_parse_address_invariant.1 parseaddrModel "Jane Doe <jane@example.com>").1,
   (c9_parse_address_invariant.1 parseaddrModel "Jane Doe <jane@example.com>").2.1.mpr
     (by decide),
   (c9_parse_address_invariant.1 parseaddrModel "jane@example.com").2.2.2 (by decide)⟩

/-- C10: each of the `cc`, `bcc` and `reply_to` payload keys is present
exactly when the corresponding input sequence is non-empty — an empty
sequence leaves the key absent, never an empty array — and those three
inputs influence nothing else in the payload. -/
theorem c10_optional_recipient_keys :
    (∀ (pa : String → String × String) (guess : String → Option String)
        (msg : SourceMessage) (p : Payload),
      convert pa guess msg = Except.ok p →
      (p.cc.isSome ↔ msg.cc ≠ []) ∧
      (p.bcc.isSome ↔ msg.bcc ≠ []) ∧
      (p.replyTo.isSome ↔ msg.replyTo ≠ [])) ∧
    (∀ (pa : String → String × String) (guess : String → Option String)
        (msg : SourceMessage) (cc' bcc' rt' : List String),
      (convert pa guess { msg with cc := cc', bcc := bcc', replyTo := rt' }).map
          stripRecipients =
        (convert pa guess msg).map stripRecipients) := by
  constructor
  · intro pa guess msg p h
    obtain ⟨content, atts, _, _, hp⟩ := convert_ok_elim pa guess msg p h
    subst hp
    have key : ∀ l : List String,
        (if l.length = 0 then (none : Option (List AddressRecord))
         else some (l.map (parseAddress pa))).isSome ↔ l ≠ [] := by
      intro l
      by_cases hl : l.length = 0
      · simp [hl, List.length_eq_zero.mp hl]
      · have hne : l ≠ [] := by
          intro he
          exact hl (by simp [he])
        simp [hl, hne]
    exact ⟨key msg.cc, key msg.bcc, key msg.replyTo⟩
  · intro pa guess msg cc' bcc' rt'
    exact convert_congr_recipients pa guess msg cc' bcc' rt'

/-- C10 witness: a message with one cc entry and empty bcc and reply_to
yields a payload whose `cc` key is present and whose `bcc` and `reply_to`
keys are absent. -/
theorem c10_witness :
    convert parseaddrModel (fun _ => none) messageWithCc =
      Except.ok payloadWithCc ∧
    (payloadWithCc.cc.isSome ↔ messageWithCc.cc ≠ []) ∧
    (payloadWithCc.bcc.isSome ↔ messageWithCc.bcc ≠ []) ∧
    payloadWithCc.cc.isSome ∧ payloadWithCc.bcc = none := by
  have h : convert parseaddrModel (fun _ => none) messageWithCc =
      Except.ok payloadWithCc := by rfl
  have hkeys := c10_optional_recipient_keys.1 parseaddrModel (fun _ => none)
    messageWithCc payloadWithCc h
  exact ⟨h, hkeys.1, hkeys.2.1, by decide, by decide⟩
